import Mathlib

/-!
Shallow embedding of `replication_handler/util/position.py`.

The Python module defines resume positions for a MySQL replication client:
an abstract `Position`, its concrete variants `GtidPosition` and
`LogPosition`, the `HeartbeatPosition` specialization, and the
`construct_position` factory.  Python dicts with string keys and
string-or-int values are modelled as association lists `List (String × Value)`
built in exactly the insertion order the source uses; Python truthiness of
the optional fields is modelled explicitly (`None` and `""`/`0` are falsy);
Python exceptions are modelled with `Option`/`Except` (`none`/`error`
means the call raises).
-/

namespace MysqlStreamer

/-- Value of a position dict entry: the source only ever stores strings
(gtid, log_file, auto_position) or integers (log_pos, offset). -/
inductive Value where
  | str (s : String)
  | int (n : Int)
deriving DecidableEq, Repr

/-- A Python dict with string keys, in insertion order. -/
abbrev PyDict := List (String × Value)

/-- Membership test for a key, modelling Python `k in d`. -/
def hasKey (d : PyDict) (k : String) : Bool :=
  d.any (fun kv => kv.1 == k)

/-- Lookup of a key, modelling Python `d.get(k)` (first binding wins;
dicts produced by the source never have duplicate keys). -/
def getVal : PyDict → String → Option Value
  | [], _ => none
  | (k2, v) :: rest, k => if k2 == k then some v else getVal rest k

/-- Lookup expecting a string value (the source stores strings under
"gtid" and "log_file"). -/
def getStrVal (d : PyDict) (k : String) : Option String :=
  match getVal d k with
  | some (Value.str s) => some s
  | _ => none

/-- Lookup expecting an integer value (the source stores ints under
"log_pos" and "offset"). -/
def getIntVal (d : PyDict) (k : String) : Option Int :=
  match getVal d k with
  | some (Value.int n) => some n
  | _ => none

/-- Python truthiness of an optional string field: `None` and `""` are falsy. -/
def strTruthy : Option String → Bool
  | none => false
  | some s => !(s == "")

/-- Python truthiness of an optional int field: `None` and `0` are falsy. -/
def intTruthy : Option Int → Bool
  | none => false
  | some n => !(n == 0)

/-- The value of an optional string field, defaulting the falsy `None`. -/
def optStrVal : Option String → String
  | none => ""
  | some s => s

/-- The value of an optional int field, defaulting the falsy `None`. -/
def optIntVal : Option Int → Int
  | none => 0
  | some n => n

/-- Python `s.split(":")` on the character list of `s`: splits at every
colon, always returns at least one (possibly empty) part. -/
def pySplitColon : List Char → List (List Char)
  | [] => [[]]
  | c :: rest =>
    if c = ':' then [] :: pySplitColon rest
    else
      match pySplitColon rest with
      | [] => [[c]]
      | h :: t => (c :: h) :: t

/-- Numeric value of an ASCII digit character. -/
def digitVal (c : Char) : Nat := c.toNat - 48

/-- Digit-string scanner for Python `int()`: accepts a nonempty run of
ASCII decimal digits with single underscores allowed between digits.
`lastDigit` records whether the previous character was a digit. -/
def pyDigitsAux (acc : Nat) (lastDigit : Bool) : List Char → Option Nat
  | [] => if lastDigit then some acc else none
  | c :: cs =>
    if c.isDigit then pyDigitsAux (10 * acc + digitVal c) true cs
    else if c == '_' && lastDigit then pyDigitsAux acc false cs
    else none

/-- Strip leading and trailing whitespace, as Python `int()` does before
parsing. -/
def pyStripWs (cs : List Char) : List Char :=
  ((cs.dropWhile Char.isWhitespace).reverse.dropWhile Char.isWhitespace).reverse

/-- Model of Python `int(s)` for a string argument: optional surrounding
whitespace, an optional sign, then decimal digits with single underscores
between digits.  `none` models the `ValueError` Python raises. -/
def pyInt (s : String) : Option Int :=
  match pyStripWs s.data with
  | '+' :: cs => (pyDigitsAux 0 false cs).map Int.ofNat
  | '-' :: cs => (pyDigitsAux 0 false cs).map (fun n => -(n : Int))
  | cs => (pyDigitsAux 0 false cs).map Int.ofNat

/-- Model of `GtidPosition._format_gtid_set`: split the gtid at ":" into
exactly a sid and a transaction id, parse the transaction id as an int,
and format `"{sid}:1-{transaction_id}"`.  `none` models the `ValueError`
raised by tuple unpacking or `int()`. -/
def format_gtid_set (gtid : String) : Option String :=
  match pySplitColon gtid.data with
  | [sid, tid] =>
    match pyInt (String.mk tid) with
    | some n => some (String.mk sid ++ ":1-" ++ toString n)
    | none => none
  | _ => none

/-- Model of `GtidPosition._format_next_gtid_set`: like
`format_gtid_set` but with the transaction id incremented by one. -/
def format_next_gtid_set (gtid : String) : Option String :=
  match pySplitColon gtid.data with
  | [sid, tid] =>
    match pyInt (String.mk tid) with
    | some n => some (String.mk sid ++ ":1-" ++ toString (n + 1))
    | none => none
  | _ => none

/-- Model of `GtidPosition.__init__`: a gtid string and a row offset,
both optional with default `None`. -/
structure GtidPosition where
  gtid : Option String := none
  offset : Option Int := none
deriving DecidableEq, Repr

/-- Model of `GtidPosition.to_dict`: include "gtid" iff truthy, then
"offset" iff truthy. -/
def GtidPosition.to_dict (p : GtidPosition) : PyDict :=
  (if strTruthy p.gtid then [("gtid", Value.str (optStrVal p.gtid))] else []) ++
  (if intTruthy p.offset then [("offset", Value.int (optIntVal p.offset))] else [])

/-- Model of `GtidPosition.to_replication_dict`: with a truthy gtid and a
truthy offset emit the current interval, with a truthy gtid alone emit the
next interval, otherwise the empty dict.  `none` models a raised
exception from interval formatting. -/
def GtidPosition.to_replication_dict (p : GtidPosition) : Option PyDict :=
  if strTruthy p.gtid && intTruthy p.offset then
    (format_gtid_set (optStrVal p.gtid)).map (fun s => [("auto_position", Value.str s)])
  else if strTruthy p.gtid then
    (format_next_gtid_set (optStrVal p.gtid)).map (fun s => [("auto_position", Value.str s)])
  else
    some []

/-- Model of `LogPosition.__init__`: binlog byte position, binlog file
name and a row offset, all optional with default `None`. -/
structure LogPosition where
  log_pos : Option Int := none
  log_file : Option String := none
  offset : Option Int := none
deriving DecidableEq, Repr

/-- Model of `LogPosition.to_dict`: include "log_pos" and "log_file"
together iff both truthy, then "offset" iff truthy. -/
def LogPosition.to_dict (p : LogPosition) : PyDict :=
  (if intTruthy p.log_pos && strTruthy p.log_file then
    [("log_pos", Value.int (optIntVal p.log_pos)),
     ("log_file", Value.str (optStrVal p.log_file))]
   else []) ++
  (if intTruthy p.offset then [("offset", Value.int (optIntVal p.offset))] else [])

/-- Model of `LogPosition.to_replication_dict`: include "log_pos" and
"log_file" together iff both truthy; never an "offset" key. -/
def LogPosition.to_replication_dict (p : LogPosition) : PyDict :=
  if intTruthy p.log_pos && strTruthy p.log_file then
    [("log_pos", Value.int (optIntVal p.log_pos)),
     ("log_file", Value.str (optStrVal p.log_file))]
  else []

/-- The two concrete position variants `construct_position` can build. -/
inductive Position where
  | gtid (p : GtidPosition)
  | log (p : LogPosition)
deriving DecidableEq, Repr

/-- Dispatch of `to_dict` over the two variants. -/
def Position.to_dict : Position → PyDict
  | Position.gtid p => p.to_dict
  | Position.log p => p.to_dict

/-- Model of `InvalidPositionDictException`. -/
inductive PositionError where
  | invalidPositionDict
deriving DecidableEq, Repr

/-- Model of `construct_position`: a dict with a "gtid" key builds a
`GtidPosition`, else a dict with both "log_pos" and "log_file" builds a
`LogPosition`, else `InvalidPositionDictException` is raised. -/
def construct_position (d : PyDict) : Except PositionError Position :=
  if hasKey d "gtid" then
    Except.ok (Position.gtid
      { gtid := getStrVal d "gtid", offset := getIntVal d "offset" })
  else if hasKey d "log_pos" && hasKey d "log_file" then
    Except.ok (Position.log
      { log_pos := getIntVal d "log_pos",
        log_file := getStrVal d "log_file",
        offset := getIntVal d "offset" })
  else
    Except.error PositionError.invalidPositionDict

/-- Model of `HeartbeatPosition.__init__`: heartbeat serial and
timestamp plus the inherited log-position fields; the constructor
defaults `offset` to `0`. -/
structure HeartbeatPosition where
  hb_serial : Int
  hb_timestamp : Int
  log_pos : Option Int
  log_file : Option String
  offset : Option Int := some 0
deriving DecidableEq, Repr

/-- Model of `HeartbeatPosition.__eq__`: equality over serial, timestamp,
log_file and log_pos; `offset` is not compared. -/
def HeartbeatPosition.beq (a b : HeartbeatPosition) : Bool :=
  a.hb_serial == b.hb_serial && a.hb_timestamp == b.hb_timestamp &&
    a.log_file == b.log_file && a.log_pos == b.log_pos

/-- Round trip of a position through the persisted mapping and the
factory: `true` iff `construct_position` accepts `p.to_dict` and the
reconstructed position persists to the identical mapping. -/
def roundtripOk (p : Position) : Bool :=
  match construct_position (Position.to_dict p) with
  | Except.ok q => decide (Position.to_dict q = Position.to_dict p)
  | Except.error _ => false

/-- Mechanical well-formedness of a gtid string, as the split/parse in
interval formatting requires it: exactly one ":" separating a source id
from a string `int()` accepts. -/
def gtidParses (g : String) : Bool :=
  match pySplitColon g.data with
  | [_, tid] => (pyInt (String.mk tid)).isSome
  | _ => false

end MysqlStreamer

namespace MysqlStreamer

theorem strTruthy_some_eq (s : String) : strTruthy (some s) = !(s == "") := rfl

theorem intTruthy_some_eq (n : Int) : intTruthy (some n) = !(n == 0) := rfl

theorem ne_empty_of_split (g : String) (sid tid : List Char)
    (h : pySplitColon g.data = [sid, tid]) : g ≠ "" := by
  intro he
  subst he
  have hd : ("" : String).data = [] := rfl
  rw [hd] at h
  simp [pySplitColon] at h

theorem formats_none_of_not_parses (g : String) (h : gtidParses g = false) :
    format_gtid_set g = none ∧ format_next_gtid_set g = none := by
  unfold gtidParses at h
  unfold format_gtid_set format_next_gtid_set
  cases hsp : pySplitColon g.data with
  | nil => exact ⟨rfl, rfl⟩
  | cons a t =>
    cases t with
    | nil => exact ⟨rfl, rfl⟩
    | cons b t2 =>
      cases t2 with
      | cons c t3 => exact ⟨rfl, rfl⟩
      | nil =>
        rw [hsp] at h
        simp only [] at h
        cases hpi : pyInt (String.mk b) with
        | some n => rw [hpi] at h; simp at h
        | none => simp [hpi]

theorem roundtrip_gtid_of_truthy (g : String) (off : Option Int) (hg : g ≠ "") :
    roundtripOk (Position.gtid { gtid := some g, offset := off }) = true := by
  have hg2 : (g == "") = false := beq_eq_false_iff_ne.mpr hg
  cases off with
  | none =>
    simp [roundtripOk, Position.to_dict, GtidPosition.to_dict, strTruthy, intTruthy,
      hg2, construct_position, hasKey, getStrVal, getIntVal, getVal, optStrVal, optIntVal]
  | some o =>
    by_cases hoz : o = 0
    · subst hoz
      simp [roundtripOk, Position.to_dict, GtidPosition.to_dict, strTruthy, intTruthy,
        hg2, construct_position, hasKey, getStrVal, getIntVal, getVal, optStrVal, optIntVal]
    · have ho2 : (o == 0) = false := beq_eq_false_iff_ne.mpr hoz
      simp [roundtripOk, Position.to_dict, GtidPosition.to_dict, strTruthy, intTruthy,
        hg2, ho2, construct_position, hasKey, getStrVal, getIntVal, getVal, optStrVal, optIntVal]

theorem roundtrip_log_of_truthy (lp : Int) (lf : String) (off : Option Int)
    (hlp : lp ≠ 0) (hlf : lf ≠ "") :
    roundtripOk (Position.log { log_pos := some lp, log_file := some lf, offset := off }) = true := by
  have hlp2 : (lp == 0) = false := beq_eq_false_iff_ne.mpr hlp
  have hlf2 : (lf == "") = false := beq_eq_false_iff_ne.mpr hlf
  cases off with
  | none =>
    simp [roundtripOk, Position.to_dict, LogPosition.to_dict, strTruthy, intTruthy,
      hlp2, hlf2, construct_position, hasKey, getStrVal, getIntVal, getVal, optStrVal, optIntVal]
  | some o =>
    by_cases hoz : o = 0
    · subst hoz
      simp [roundtripOk, Position.to_dict, LogPosition.to_dict, strTruthy, intTruthy,
        hlp2, hlf2, construct_position, hasKey, getStrVal, getIntVal, getVal, optStrVal, optIntVal]
    · have ho2 : (o == 0) = false := beq_eq_false_iff_ne.mpr hoz
      simp [roundtripOk, Position.to_dict, LogPosition.to_dict, strTruthy, intTruthy,
        hlp2, hlf2, ho2, construct_position, hasKey, getStrVal, getIntVal, getVal, optStrVal, optIntVal]

/-- C1. For every GtidPosition whose gtid splits at ":" into exactly a
source id `sid` and a transaction id `tid` that `int()` parses to a
positive `N`, and whose offset is absent or falsy, `to_replication_dict`
returns exactly the singleton dict mapping "auto_position" to
`"{sid}:1-{N+1}"`, the next interval with the transaction id incremented
by one. -/
theorem gtid_resume_next_interval (g : String) (sid tid : List Char) (N : Int)
    (off : Option Int)
    (hsplit : pySplitColon g.data = [sid, tid])
    (hparse : pyInt (String.mk tid) = some N)
    (hpos : 0 < N)
    (hoff : intTruthy off = false) :
    GtidPosition.to_replication_dict { gtid := some g, offset := off } =
      some [("auto_position", Value.str (String.mk sid ++ ":1-" ++ toString (N + 1)))] := by
  have hg2 : (g == "") = false :=
    beq_eq_false_iff_ne.mpr (ne_empty_of_split g sid tid hsplit)
  simp [GtidPosition.to_replication_dict, strTruthy_some_eq, hg2, hoff,
    format_next_gtid_set, hsplit, hparse, optStrVal]

/-- C1 witness: `GtidPosition(gtid="sid:13")` resumes at the next
interval "sid:1-14". -/
theorem gtid_resume_next_interval_witness :
    GtidPosition.to_replication_dict { gtid := some "sid:13", offset := none } =
      some [("auto_position", Value.str "sid:1-14")] := by
  have h := gtid_resume_next_interval "sid:13" "sid".data "13".data 13 none
    (by decide) (by decide) (by decide) (by decide)
  exact h

/-- C2. For every GtidPosition whose gtid splits at ":" into exactly a
source id `sid` and a transaction id `tid` that `int()` parses to a
positive `N`, and whose offset is a positive integer, `to_replication_dict`
returns exactly the singleton dict mapping "auto_position" to
`"{sid}:1-{N}"`, the current interval with the transaction id unchanged. -/
theorem gtid_resume_current_interval (g : String) (sid tid : List Char) (N o : Int)
    (hsplit : pySplitColon g.data = [sid, tid])
    (hparse : pyInt (String.mk tid) = some N)
    (hpos : 0 < N) (ho : 0 < o) :
    GtidPosition.to_replication_dict { gtid := some g, offset := some o } =
      some [("auto_position", Value.str (String.mk sid ++ ":1-" ++ toString N))] := by
  have hg2 : (g == "") = false :=
    beq_eq_false_iff_ne.mpr (ne_empty_of_split g sid tid hsplit)
  have ho2 : (o == 0) = false := beq_eq_false_iff_ne.mpr (by omega)
  simp [GtidPosition.to_replication_dict, strTruthy_some_eq, hg2, intTruthy, ho2,
    format_gtid_set, hsplit, hparse, optStrVal]

/-- C2 witness: the spec's concrete example, where
`GtidPosition(gtid="abc:13", offset=10).to_replication_dict()` maps
"auto_position" to "abc:1-13". -/
theorem gtid_resume_current_interval_witness :
    GtidPosition.to_replication_dict { gtid := some "abc:13", offset := some 10 } =
      some [("auto_position", Value.str "abc:1-13")] := by
  have h := gtid_resume_current_interval "abc:13" "abc".data "13".data 13 10
    (by decide) (by decide) (by decide) (by decide)
  exact h

end MysqlStreamer

namespace MysqlStreamer

/-- C3 counterexample: a GtidPosition with no gtid and no offset persists
to the empty dict, which `construct_position` rejects with
`InvalidPositionDictException`, so the persisted mapping of this position
does not round-trip. -/
theorem persisted_roundtrip_counterexample :
    construct_position (Position.to_dict (Position.gtid { gtid := none, offset := none })) =
      Except.error PositionError.invalidPositionDict ∧
    roundtripOk (Position.gtid { gtid := none, offset := none }) = false :=
  ⟨rfl, by decide⟩

/-- C3 (amended). For every GtidPosition with a truthy gtid and every
LogPosition with truthy log_pos and log_file, and for every offset
(absent, zero or nonzero), applying `to_dict`, then `construct_position`,
then `to_dict` again, yields a mapping identical to the first one. -/
theorem persisted_roundtrip (g : String) (off : Option Int) (lp : Int) (lf : String)
    (off2 : Option Int) (hg : g ≠ "") (hlp : lp ≠ 0) (hlf : lf ≠ "") :
    roundtripOk (Position.gtid { gtid := some g, offset := off }) = true ∧
    roundtripOk (Position.log { log_pos := some lp, log_file := some lf, offset := off2 }) = true :=
  ⟨roundtrip_gtid_of_truthy g off hg, roundtrip_log_of_truthy lp lf off2 hlp hlf⟩

/-- C3 witness: concrete round trips for a gtid position with an offset
and a file position without one. -/
theorem persisted_roundtrip_witness :
    roundtripOk (Position.gtid { gtid := some "a:1", offset := some 3 }) = true ∧
    roundtripOk (Position.log { log_pos := some 100, log_file := some "bin.1", offset := none }) = true :=
  persisted_roundtrip "a:1" (some 3) 100 "bin.1" none (by decide) (by decide) (by decide)

/-- C4. For every GtidPosition with a truthy gtid that does not split at
":" into exactly a source id and an `int()`-parsable transaction id,
`to_replication_dict` raises (modelled as `none`) rather than returning
any mapping, whatever the offset. -/
theorem malformed_gtid_raises (g : String) (off : Option Int)
    (hg : g ≠ "") (hmal : gtidParses g = false) :
    GtidPosition.to_replication_dict { gtid := some g, offset := off } = none := by
  have hg2 : (g == "") = false := beq_eq_false_iff_ne.mpr hg
  have hf := formats_none_of_not_parses g hmal
  cases h : intTruthy off <;>
    simp [GtidPosition.to_replication_dict, strTruthy_some_eq, hg2, h, optStrVal, hf.1, hf.2]

/-- C4 witness: a gtid with no ":" separator makes `to_replication_dict`
raise. -/
theorem malformed_gtid_raises_witness :
    GtidPosition.to_replication_dict { gtid := some "abc", offset := none } = none :=
  malformed_gtid_raises "abc" none (by decide) (by decide)

/-- C5. `construct_position` raises `InvalidPositionDictException` iff the
dict has no "gtid" key and not both of "log_pos" and "log_file";
otherwise it returns a GtidPosition when "gtid" is present, and a
LogPosition when "gtid" is absent and both log keys are present. -/
theorem construct_position_spec (d : PyDict) :
    (construct_position d = Except.error PositionError.invalidPositionDict ↔
      hasKey d "gtid" = false ∧ (hasKey d "log_pos" && hasKey d "log_file") = false) ∧
    (hasKey d "gtid" = true →
      construct_position d = Except.ok (Position.gtid
        { gtid := getStrVal d "gtid", offset := getIntVal d "offset" })) ∧
    (hasKey d "gtid" = false → (hasKey d "log_pos" && hasKey d "log_file") = true →
      construct_position d = Except.ok (Position.log
        { log_pos := getIntVal d "log_pos", log_file := getStrVal d "log_file",
          offset := getIntVal d "offset" })) := by
  cases hg : hasKey d "gtid" <;> cases hl : (hasKey d "log_pos" && hasKey d "log_file") <;>
    simp [construct_position, hg, hl]

/-- C5 witness: the empty dict and a dict with "log_pos" but no
"log_file" are both rejected. -/
theorem construct_position_spec_witness :
    construct_position [] = Except.error PositionError.invalidPositionDict ∧
    construct_position [("log_pos", Value.int 100)] =
      Except.error PositionError.invalidPositionDict :=
  ⟨(construct_position_spec []).1.mpr ⟨by decide, by decide⟩,
   (construct_position_spec [("log_pos", Value.int 100)]).1.mpr ⟨by decide, by decide⟩⟩

/-- C6. A GtidPosition with offset 0 behaves exactly like one with an
absent offset, for both `to_dict` and `to_replication_dict`; concretely,
`GtidPosition(gtid="abc:5", offset=0)` persists to a dict with only the
"gtid" key and resumes at the next interval "abc:1-6". -/
theorem gtid_offset_zero_like_absent (g : Option String) :
    GtidPosition.to_dict { gtid := g, offset := some 0 } =
      GtidPosition.to_dict { gtid := g, offset := none } ∧
    GtidPosition.to_replication_dict { gtid := g, offset := some 0 } =
      GtidPosition.to_replication_dict { gtid := g, offset := none } ∧
    GtidPosition.to_dict { gtid := some "abc:5", offset := some 0 } =
      [("gtid", Value.str "abc:5")] ∧
    GtidPosition.to_replication_dict { gtid := some "abc:5", offset := some 0 } =
      some [("auto_position", Value.str "abc:1-6")] := by
  refine ⟨?_, ?_, by decide, by decide⟩ <;>
    simp [GtidPosition.to_dict, GtidPosition.to_replication_dict, intTruthy]

/-- C7. A LogPosition's `to_replication_dict` never contains an "offset"
key: it is exactly the two-key dict of "log_pos" and "log_file" when both
are truthy, and empty otherwise. -/
theorem log_resume_never_offset (p : LogPosition) :
    hasKey p.to_replication_dict "offset" = false ∧
    (if intTruthy p.log_pos && strTruthy p.log_file then
        p.to_replication_dict =
          [("log_pos", Value.int (optIntVal p.log_pos)),
           ("log_file", Value.str (optStrVal p.log_file))]
      else p.to_replication_dict = []) := by
  cases h : (intTruthy p.log_pos && strTruthy p.log_file) <;>
    simp [LogPosition.to_replication_dict, h, hasKey]

/-- C8 counterexample: `GtidPosition(offset=10)` (no gtid) is directly
constructible and its persisted mapping contains an "offset" key with no
"gtid" key, violating the claimed invariant. -/
theorem gtid_invariant_counterexample :
    hasKey (GtidPosition.to_dict { gtid := none, offset := some 10 }) "offset" = true ∧
    hasKey (GtidPosition.to_dict { gtid := none, offset := some 10 }) "gtid" = false := by decide

/-- C8 (amended). The code does not enforce the invariant: for every
GtidPosition, the persisted mapping contains an "offset" key without a
"gtid" key exactly when the position's gtid is falsy and its offset is
truthy, and such positions are directly constructible. -/
theorem offset_without_gtid_iff (p : GtidPosition) :
    (hasKey p.to_dict "offset" = true ∧ hasKey p.to_dict "gtid" = false) ↔
      (strTruthy p.gtid = false ∧ intTruthy p.offset = true) := by
  cases hg : strTruthy p.gtid <;> cases ho : intTruthy p.offset <;>
    simp [GtidPosition.to_dict, hg, ho, hasKey]

/-- C8 witness: the iff applied at the concrete offset-only position. -/
theorem offset_without_gtid_iff_witness :
    hasKey (GtidPosition.to_dict { gtid := some "", offset := some 10 }) "offset" = true ∧
    hasKey (GtidPosition.to_dict { gtid := some "", offset := some 10 }) "gtid" = false :=
  (offset_without_gtid_iff { gtid := some "", offset := some 10 }).mpr ⟨by decide, by decide⟩

/-- C9. HeartbeatPosition equality holds iff the two values agree on
hb_serial, hb_timestamp, log_file and log_pos; in particular two
HeartbeatPositions differing only in offset always compare equal. -/
theorem hb_eq_ignores_offset (a b : HeartbeatPosition) :
    (HeartbeatPosition.beq a b = true ↔
      (a.hb_serial = b.hb_serial ∧ a.hb_timestamp = b.hb_timestamp ∧
       a.log_file = b.log_file ∧ a.log_pos = b.log_pos)) ∧
    (∀ (s t : Int) (lp : Option Int) (lf : Option String) (o1 o2 : Option Int),
      HeartbeatPosition.beq
        { hb_serial := s, hb_timestamp := t, log_pos := lp, log_file := lf, offset := o1 }
        { hb_serial := s, hb_timestamp := t, log_pos := lp, log_file := lf, offset := o2 } = true) := by
  constructor
  · simp [HeartbeatPosition.beq, and_assoc]
  · intro s t lp lf o1 o2
    simp [HeartbeatPosition.beq]

/-- C9 witness: two concrete HeartbeatPositions differing only in offset
compare equal. -/
theorem hb_eq_ignores_offset_witness :
    HeartbeatPosition.beq
      { hb_serial := 1, hb_timestamp := 2, log_pos := some 3, log_file := some "f", offset := some 0 }
      { hb_serial := 1, hb_timestamp := 2, log_pos := some 3, log_file := some "f", offset := some 7 } = true :=
  (hb_eq_ignores_offset
      { hb_serial := 1, hb_timestamp := 2, log_pos := some 3, log_file := some "f", offset := some 0 }
      { hb_serial := 1, hb_timestamp := 2, log_pos := some 3, log_file := some "f", offset := some 7 }).2
    1 2 (some 3) (some "f") (some 0) (some 7)

/-- C10. For every GtidPosition with a falsy gtid (absent or empty) and a
truthy offset, `to_replication_dict` returns the empty dict without
raising. -/
theorem falsy_gtid_truthy_offset_empty (g : Option String) (off : Option Int)
    (hg : strTruthy g = false) (ho : intTruthy off = true) :
    GtidPosition.to_replication_dict { gtid := g, offset := off } = some [] := by
  simp [GtidPosition.to_replication_dict, hg, ho]

/-- C10 witness: `GtidPosition(offset=5)` resumes with the empty dict. -/
theorem falsy_gtid_truthy_offset_empty_witness :
    GtidPosition.to_replication_dict { gtid := none, offset := some 5 } = some [] :=
  falsy_gtid_truthy_offset_empty none (some 5) (by decide) (by decide)

end MysqlStreamer
